import Mathlib

/-!
Formal model of the meeting-minutes audio slice.

The development shallowly embeds three Rust source files:

- audio/devices/platform/linux.rs  (Linux device enumeration)
- audio/capture/system.rs          (system audio capture, Linux monitor backend)
- audio/transcription/groq_provider.rs (cloud transcription adapter)

Machine floats (f32) are modelled as exact rationals extended with NaN and the
two infinities; f32 values appearing here (16-bit integer samples divided by a
power of two, integer subtraction, comparison against integer bounds) are
exactly representable, so exact rational arithmetic agrees with the f32
operations the code performs.  Fallible operations of the platform audio host
and of the HTTP stack are modelled as explicit Option/Except-valued inputs.
-/

namespace MeetingMinutes

/-! ### String helpers

Rust str::contains is substring containment; str::to_lowercase on the ASCII
device names used here is a per-character lowercase map.
-/

/-- Lowercase of a string, character by character (ASCII letters only, which
matches Rust to_lowercase on the ASCII device names involved). -/
def strToLower (s : String) : String := String.mk (s.data.map Char.toLower)

/-- Boolean substring test, mirroring Rust str::contains. -/
def strContainsB (hay sub : String) : Bool := decide (sub.data <:+: hay.data)

/-- Propositional substring containment (used to state that an error message
carries a given piece of text). -/
def StrContains (hay sub : String) : Prop := sub.data <:+: hay.data

theorem strContains_parts (pre sub post : String) :
    StrContains (pre ++ sub ++ post) sub := by
  refine ⟨pre.data, post.data, ?_⟩
  simp [String.data_append]

/-! ### Linux device enumeration (linux.rs, configure_linux_audio)

A device handle is modelled by the result of its name() call: some name when
the name is readable, none when reading the name fails.  The whole enumeration
is an Option: none models host.input_devices() returning Err.
-/

inductive DeviceType
  | input
  | output
deriving DecidableEq, Repr

structure AudioDevice where
  name : String
  type : DeviceType
deriving DecidableEq, Repr

/-- Whether a device name contains the case-insensitive token "monitor". -/
def isMonitorName (name : String) : Bool :=
  strContainsB (strToLower name) "monitor"

/-- Display name given to a monitor device (linux.rs lines 19-23). -/
def monitorDisplayName (name : String) : String :=
  if strContainsB (strToLower name) "analog" then
    "Built-in Audio (System Audio)"
  else
    name ++ " (System Audio)"

/-- The enumeration loop of configure_linux_audio: walks the input devices in
order, skipping devices whose name is unreadable, pushing non-monitor devices
onto the first list and relabeled monitor devices onto the second. -/
def classifyInputDevices : List (Option String) → List AudioDevice × List AudioDevice
  | [] => ([], [])
  | none :: rest => classifyInputDevices rest
  | some name :: rest =>
      let p := classifyInputDevices rest
      if isMonitorName name then
        (p.1, AudioDevice.mk (monitorDisplayName name) DeviceType.output :: p.2)
      else
        (AudioDevice.mk name DeviceType.input :: p.1, p.2)

/-- configure_linux_audio: regular inputs first, then monitor devices; an
enumeration failure of the host yields the empty device list. -/
def configure_linux_audio (inputDevices : Option (List (Option String))) :
    Except String (List AudioDevice) :=
  match inputDevices with
  | none => Except.ok []
  | some names =>
      let p := classifyInputDevices names
      Except.ok (p.1 ++ p.2)

theorem classifyInputDevices_eq (names : List (Option String)) :
    classifyInputDevices names =
      ((names.reduceOption.filter (fun n => !isMonitorName n)).map
          (fun n => AudioDevice.mk n DeviceType.input),
        (names.reduceOption.filter isMonitorName).map
          (fun n => AudioDevice.mk (monitorDisplayName n) DeviceType.output)) := by
  induction names with
  | nil => rfl
  | cons hd tl ih =>
      cases hd with
      | none => simpa [classifyInputDevices] using ih
      | some name =>
          by_cases h : isMonitorName name = true
          · simp [classifyInputDevices, h, ih, List.filter_cons]
          · simp only [Bool.not_eq_true] at h
            simp [classifyInputDevices, h, ih, List.filter_cons]

/-- C4: Linux device enumeration partitions the readable input devices by
whether the lowercased name contains "monitor": non-monitor devices come back
as Input devices under their original name, monitor devices come back as
Output devices relabeled ("Built-in Audio (System Audio)" when the lowercased
name also contains "analog", otherwise the name followed by " (System Audio)"),
and all regular inputs precede all monitor devices, each group in enumeration
order. -/
theorem c4_linux_partition (names : List (Option String)) :
    configure_linux_audio (some names) =
      Except.ok
        (((names.reduceOption.filter (fun n => !isMonitorName n)).map
            (fun n => AudioDevice.mk n DeviceType.input)) ++
          ((names.reduceOption.filter isMonitorName).map
            (fun n => AudioDevice.mk (monitorDisplayName n) DeviceType.output))) := by
  simp [configure_linux_audio, classifyInputDevices_eq]

/-- C9: configure_linux_audio is total: an enumeration failure of the host
yields Ok with the empty list, every readable enumeration yields Ok, and a
device whose name cannot be read is skipped without failing the enumeration. -/
theorem c9_enumeration_total :
    configure_linux_audio none = Except.ok [] ∧
      (∀ names, ∃ devs, configure_linux_audio (some names) = Except.ok devs) ∧
      (∀ rest : List (Option String),
        configure_linux_audio (some (none :: rest)) = configure_linux_audio (some rest)) := by
  refine ⟨rfl, fun names => ⟨_, rfl⟩, fun rest => ?_⟩
  simp [configure_linux_audio, classifyInputDevices]

/-! ### System audio capture, Linux monitor backend (system.rs)

The cpal host is modelled by the outcome of its fallible calls: the input
device enumeration (none models Err), per device the outcome of name() and
default_input_config(), and whether build_input_stream and play succeed.
-/

inductive SampleFormat
  | i8
  | i16
  | i32
  | i64
  | u8
  | u16
  | u32
  | u64
  | f32
  | f64
deriving DecidableEq, Repr

structure StreamConfig where
  sampleRate : Nat
  sampleFormat : SampleFormat
deriving DecidableEq, Repr

structure CaptureDevice where
  name : Option String
  defaultInputConfig : Option StreamConfig
  buildOk : Bool
  playOk : Bool
deriving DecidableEq, Repr

structure CaptureHost where
  inputDevices : Option (List CaptureDevice)
deriving DecidableEq, Repr

inductive CaptureError
  | noMonitorDeviceFound
  | deviceConfigError
  | unsupportedSampleFormat (fmt : SampleFormat)
  | streamBuildError
  | streamPlayError
deriving DecidableEq, Repr

/-- The loop body test of the monitor search (system.rs lines 112-125): a
device is picked iff its name is readable and contains "monitor". -/
def deviceMatchesMonitor (d : CaptureDevice) : Bool :=
  match d.name with
  | some n => isMonitorName n
  | none => false

/-- The monitor search loop: first device whose readable name contains
"monitor" (the loop breaks on the first hit). -/
def findMonitorDevice : List CaptureDevice → Option CaptureDevice
  | [] => none
  | d :: rest => if deviceMatchesMonitor d then some d else findMonitorDevice rest

/-- Devices examined by the loop: none at all when input_devices() fails. -/
def enumeratedInputDevices (host : CaptureHost) : List CaptureDevice :=
  host.inputDevices.getD []

def selectedMonitor (host : CaptureHost) : Option CaptureDevice :=
  findMonitorDevice (enumeratedInputDevices host)

/-- Raw data handed to the native callback, typed by the negotiated format. -/
inductive RawData
  | f32Data (xs : List ℚ)
  | i16Data (xs : List Int)
  | u16Data (xs : List Nat)
deriving DecidableEq, Repr

/-- Per-batch sample conversion of the three supported callback closures
(system.rs lines 141-181): f32 passes through, i16 divides by 32768.0, u16
subtracts 32768.0 then divides by 32768.0. -/
def convertBatch : SampleFormat → RawData → List ℚ
  | .f32, .f32Data xs => xs
  | .i16, .i16Data xs => xs.map (fun s => (s : ℚ) / 32768)
  | .u16, .u16Data xs => xs.map (fun s => ((s : ℚ) - 32768) / 32768)
  | _, _ => []

/-- Side effects of start_system_audio_capture on the native stream: how many
build_input_stream calls and how many play calls were made. -/
structure Effects where
  buildCalls : Nat
  playCalls : Nat
deriving DecidableEq, Repr

/-- The stream handle returned on success: the negotiated sample rate and the
format whose conversion closure the callback runs. -/
structure StreamModel where
  sampleRate : Nat
  format : SampleFormat
deriving DecidableEq, Repr

/-- Formats with a build_input_stream arm; every other format hits the
catch-all arm and fails (system.rs lines 182-184). -/
def supportedFormat : SampleFormat → Bool
  | .f32 => true
  | .i16 => true
  | .u16 => true
  | _ => false

/-- The Linux branch of start_system_audio_capture (system.rs lines 101-201):
monitor search, default config negotiation, format dispatch, stream build,
stream play. -/
def start_system_audio_capture (host : CaptureHost) :
    Except CaptureError StreamModel × Effects :=
  match selectedMonitor host with
  | none => (Except.error CaptureError.noMonitorDeviceFound, ⟨0, 0⟩)
  | some d =>
      match d.defaultInputConfig with
      | none => (Except.error CaptureError.deviceConfigError, ⟨0, 0⟩)
      | some cfg =>
          if supportedFormat cfg.sampleFormat then
            if d.buildOk then
              if d.playOk then
                (Except.ok ⟨cfg.sampleRate, cfg.sampleFormat⟩, ⟨1, 1⟩)
              else
                (Except.error CaptureError.streamPlayError, ⟨1, 1⟩)
            else
              (Except.error CaptureError.streamBuildError, ⟨1, 0⟩)
          else
            (Except.error (CaptureError.unsupportedSampleFormat cfg.sampleFormat), ⟨0, 0⟩)

/-- C1: the per-sample conversion of the monitor backend is s / 32768 for
signed 16-bit samples, (s - 32768) / 32768 for unsigned 16-bit samples, the
identity for 32-bit float samples; and for any other negotiated format
start_system_audio_capture fails with UnsupportedSampleFormat before any
stream is built or started. -/
theorem c1_conversion_per_format :
    (∀ xs : List Int, convertBatch SampleFormat.i16 (RawData.i16Data xs) =
        xs.map (fun s => (s : ℚ) / 32768)) ∧
      (∀ xs : List Nat, convertBatch SampleFormat.u16 (RawData.u16Data xs) =
        xs.map (fun s => ((s : ℚ) - 32768) / 32768)) ∧
      (∀ xs : List ℚ, convertBatch SampleFormat.f32 (RawData.f32Data xs) = xs) ∧
      (∀ (host : CaptureHost) (d : CaptureDevice) (cfg : StreamConfig),
        selectedMonitor host = some d →
        d.defaultInputConfig = some cfg →
        supportedFormat cfg.sampleFormat = false →
        start_system_audio_capture host =
          (Except.error (CaptureError.unsupportedSampleFormat cfg.sampleFormat), ⟨0, 0⟩)) := by
  refine ⟨fun xs => rfl, fun xs => rfl, fun xs => rfl, ?_⟩
  intro host d cfg hsel hcfg hfmt
  simp [start_system_audio_capture, hsel, hcfg, hfmt]

theorem c1_conversion_per_format_witness :
    selectedMonitor (CaptureHost.mk (some [CaptureDevice.mk (some "Built-in Monitor")
          (some (StreamConfig.mk 44100 SampleFormat.u8)) true true])) =
        some (CaptureDevice.mk (some "Built-in Monitor")
          (some (StreamConfig.mk 44100 SampleFormat.u8)) true true) ∧
      supportedFormat SampleFormat.u8 = false ∧
      start_system_audio_capture (CaptureHost.mk (some [CaptureDevice.mk (some "Built-in Monitor")
          (some (StreamConfig.mk 44100 SampleFormat.u8)) true true])) =
        (Except.error (CaptureError.unsupportedSampleFormat SampleFormat.u8), ⟨0, 0⟩) :=
  ⟨by decide, by decide,
    c1_conversion_per_format.2.2.2
      (CaptureHost.mk (some [CaptureDevice.mk (some "Built-in Monitor")
        (some (StreamConfig.mk 44100 SampleFormat.u8)) true true]))
      (CaptureDevice.mk (some "Built-in Monitor")
        (some (StreamConfig.mk 44100 SampleFormat.u8)) true true)
      (StreamConfig.mk 44100 SampleFormat.u8)
      (by decide) rfl rfl⟩

theorem findMonitorDevice_eq_find (l : List CaptureDevice) :
    findMonitorDevice l = l.find? deviceMatchesMonitor := by
  induction l with
  | nil => rfl
  | cons d rest ih =>
      by_cases h : deviceMatchesMonitor d = true
      · simp [findMonitorDevice, List.find?, h]
      · simp only [Bool.not_eq_true] at h
        simp [findMonitorDevice, List.find?, h, ih]

/-- C2: the monitor backend selects the first enumerated input device whose
readable name contains the case-insensitive token "monitor"; when no
enumerated device matches, start_system_audio_capture fails with
NoMonitorDeviceFound and neither builds nor starts any stream. -/
theorem c2_first_monitor_selection (host : CaptureHost) :
    selectedMonitor host = (enumeratedInputDevices host).find? deviceMatchesMonitor ∧
      ((∀ d ∈ enumeratedInputDevices host, deviceMatchesMonitor d = false) →
        start_system_audio_capture host =
          (Except.error CaptureError.noMonitorDeviceFound, ⟨0, 0⟩)) := by
  refine ⟨findMonitorDevice_eq_find _, fun hnone => ?_⟩
  have hsel : selectedMonitor host = none := by
    rw [selectedMonitor, findMonitorDevice_eq_find, List.find?_eq_none]
    intro d hd
    simp [hnone d hd]
  simp [start_system_audio_capture, hsel]

theorem c2_first_monitor_selection_witness :
    (∀ d ∈ enumeratedInputDevices (CaptureHost.mk (some
        [CaptureDevice.mk (some "USB Mic") none true true,
          CaptureDevice.mk none none true true])), deviceMatchesMonitor d = false) ∧
      start_system_audio_capture (CaptureHost.mk (some
        [CaptureDevice.mk (some "USB Mic") none true true,
          CaptureDevice.mk none none true true])) =
        (Except.error CaptureError.noMonitorDeviceFound, ⟨0, 0⟩) :=
  ⟨by decide,
    (c2_first_monitor_selection (CaptureHost.mk (some
      [CaptureDevice.mk (some "USB Mic") none true true,
        CaptureDevice.mk none none true true]))).2 (by decide)⟩

/-! ### Callback and shutdown step relation (system.rs)

The two channels shared between the CaptureSession and the native callback are
modelled explicitly: the std mpsc stop channel as a count of pending messages
plus a sender-alive flag (try_recv EXTRACTS a pending message; Empty and
Disconnected are both Err), and the futures unbounded sample channel as a
receiver-alive flag plus the list of batches successfully enqueued for the
consumer.  Dropping the SystemAudioStream performs, in field order: the drop
body sends one stop message, then the stop sender is dropped, then the sample
receiver is dropped.  Callbacks run on the native audio thread and may
interleave anywhere with these three steps.
-/

structure ChanState where
  pendingStops : Nat
  stopSenderAlive : Bool
  consumerAlive : Bool
  forwarded : List (List ℚ)
deriving DecidableEq, Repr

/-- One native audio callback invocation (system.rs lines 144-148, 157-162,
171-176): try_recv on the stop channel returns Ok exactly when a message is
pending, and consumes it, in which case the callback returns at once;
otherwise the converted batch is pushed into the sample channel, which keeps
it only while the receiver is alive. -/
def callbackStep (fmt : SampleFormat) (data : RawData) (st : ChanState) : ChanState :=
  if 0 < st.pendingStops then
    { st with pendingStops := st.pendingStops - 1 }
  else if st.consumerAlive then
    { st with forwarded := st.forwarded ++ [convertBatch fmt data] }
  else
    st

inductive CaptureEvent
  | sendStop
  | dropStopSender
  | dropReceiver
  | callback (data : RawData)
deriving DecidableEq, Repr

def stepEvent (fmt : SampleFormat) (st : ChanState) : CaptureEvent → ChanState
  | .sendStop => { st with pendingStops := st.pendingStops + 1 }
  | .dropStopSender => { st with stopSenderAlive := false }
  | .dropReceiver => { st with consumerAlive := false }
  | .callback data => callbackStep fmt data st

def execTrace (fmt : SampleFormat) (st : ChanState) : List CaptureEvent → ChanState
  | [] => st
  | e :: rest => execTrace fmt (stepEvent fmt st e) rest

def initChanState : ChanState := ⟨0, true, true, []⟩

theorem c3_counterexample :
    (execTrace SampleFormat.f32 initChanState
        [CaptureEvent.sendStop,
          CaptureEvent.callback (RawData.f32Data [0])]).forwarded = [] ∧
      (execTrace SampleFormat.f32 initChanState
        [CaptureEvent.sendStop,
          CaptureEvent.callback (RawData.f32Data [0]),
          CaptureEvent.callback (RawData.f32Data [1])]).forwarded = [[1]] :=
  ⟨rfl, rfl⟩

theorem callbackStep_consumerAlive (fmt : SampleFormat) (data : RawData) (st : ChanState) :
    (callbackStep fmt data st).consumerAlive = st.consumerAlive := by
  unfold callbackStep
  split
  · rfl
  · split <;> rfl

theorem stepEvent_consumer_dead (fmt : SampleFormat) (st : ChanState) (e : CaptureEvent)
    (h : st.consumerAlive = false) : (stepEvent fmt st e).consumerAlive = false := by
  cases e with
  | sendStop => exact h
  | dropStopSender => exact h
  | dropReceiver => rfl
  | callback data => rw [stepEvent, callbackStep_consumerAlive]; exact h

theorem execTrace_consumer_dead (fmt : SampleFormat) (l : List CaptureEvent) :
    ∀ st : ChanState, st.consumerAlive = false →
      (execTrace fmt st l).consumerAlive = false := by
  induction l with
  | nil => intro st h; exact h
  | cons e rest ih =>
      intro st h
      exact ih _ (stepEvent_consumer_dead fmt st e h)

theorem dropReceiver_mem_consumer_dead (fmt : SampleFormat) (pre : List CaptureEvent) :
    ∀ st : ChanState, CaptureEvent.dropReceiver ∈ pre →
      (execTrace fmt st pre).consumerAlive = false := by
  induction pre with
  | nil => intro st h; cases h
  | cons e rest ih =>
      intro st h
      rcases List.mem_cons.mp h with h | h
      · subst h
        exact execTrace_consumer_dead fmt rest _ rfl
      · exact ih _ h

/-- C3 amended: a native callback invocation forwards no batch to the sample
channel whenever a stop message is still pending (in particular the first
invocation after the stop signal is sent, which consumes it), and, in every
execution of the step relation, no batch is forwarded by a callback that runs
after the consumer side of the sample channel has been dropped.  The original
claim, that EVERY callback after the stop signal forwards nothing, fails:
try_recv consumes the single stop message, so a second callback that runs
while the sample receiver is still alive forwards its batch again
(c3_counterexample). -/
theorem c3_stop_signal_behavior :
    (∀ (fmt : SampleFormat) (data : RawData) (st : ChanState),
        0 < st.pendingStops ∨ st.consumerAlive = false →
        (callbackStep fmt data st).forwarded = st.forwarded) ∧
      (∀ (fmt : SampleFormat) (pre : List CaptureEvent) (data : RawData),
        CaptureEvent.dropReceiver ∈ pre →
        (stepEvent fmt (execTrace fmt initChanState pre) (CaptureEvent.callback data)).forwarded =
          (execTrace fmt initChanState pre).forwarded) := by
  constructor
  · intro fmt data st h
    unfold callbackStep
    rcases h with h | h
    · rw [if_pos h]
    · by_cases hp : 0 < st.pendingStops
      · rw [if_pos hp]
      · rw [if_neg hp, h]
        simp
  · intro fmt pre data h
    have hdead := dropReceiver_mem_consumer_dead fmt pre initChanState h
    rw [stepEvent, callbackStep]
    by_cases hp : 0 < (execTrace fmt initChanState pre).pendingStops
    · rw [if_pos hp]
    · rw [if_neg hp, hdead]
      simp

theorem c3_stop_signal_behavior_witness :
    (0 < (ChanState.mk 1 true true []).pendingStops ∨
        (ChanState.mk 1 true true []).consumerAlive = false) ∧
      (callbackStep SampleFormat.f32 (RawData.f32Data [1])
          (ChanState.mk 1 true true [])).forwarded =
        (ChanState.mk 1 true true []).forwarded :=
  ⟨Or.inl (by decide),
    c3_stop_signal_behavior.1 SampleFormat.f32 (RawData.f32Data [1])
      (ChanState.mk 1 true true []) (Or.inl (by decide))⟩

/-! ### Cloud transcription adapter (groq_provider.rs)

The f32 samples handed to the adapter are modelled as exact rationals extended
with NaN and the infinities.  The Rust cast expression
(sample * 32767.0).clamp(-32768.0, 32767.0) as i16 is modelled operation by
operation: f32 multiplication, f32 clamp (NaN propagates, the infinities clamp
to the bounds), and the saturating float-to-integer cast (truncation toward
zero, NaN to 0).
-/

inductive F32
  | nan
  | inf (neg : Bool)
  | finite (q : ℚ)
deriving DecidableEq, Repr

/-- Multiplication of a sample by 32767.0. -/
def f32Mul32767 : F32 → F32
  | .nan => .nan
  | .inf b => .inf b
  | .finite q => .finite (q * 32767)

/-- Rust f32::clamp with finite bounds lo ≤ hi: NaN propagates, the
infinities hit a bound, finite values are clamped. -/
def f32Clamp (x : F32) (lo hi : ℚ) : F32 :=
  match x with
  | .nan => .nan
  | .inf b => .finite (if b then lo else hi)
  | .finite q => .finite (max lo (min hi q))

/-- Truncation of a rational toward zero, the rounding of a Rust float-to-int
cast. -/
def ratTrunc (q : ℚ) : Int := if 0 ≤ q then ⌊q⌋ else ⌈q⌉

/-- Rust saturating cast of an f32 to i16: NaN casts to 0, values beyond the
representable range saturate, finite values truncate toward zero. -/
def castToI16 : F32 → Int
  | .nan => 0
  | .inf b => if b then -32768 else 32767
  | .finite q => max (-32768) (min 32767 (ratTrunc q))

/-- The per-sample conversion of samples_to_wav (groq_provider.rs line 113):
scale by 32767.0, clamp to [-32768.0, 32767.0], cast to i16. -/
def floatToI16 (s : F32) : Int := castToI16 (f32Clamp (f32Mul32767 s) (-32768) 32767)

inductive WavSampleFormat
  | int
  | float
deriving DecidableEq, Repr

structure WavSpec where
  channels : Nat
  sampleRate : Nat
  bitsPerSample : Nat
  sampleFormat : WavSampleFormat
deriving DecidableEq, Repr

structure WavFile where
  spec : WavSpec
  data : List Int
deriving DecidableEq, Repr

/-- samples_to_wav (groq_provider.rs lines 100-124): a mono 16-bit
integer-PCM container whose header carries the given sample rate, holding one
converted i16 per input sample.  Writing to the in-memory cursor cannot fail,
so the function is total here. -/
def samples_to_wav (samples : List F32) (sampleRate : Nat) : WavFile :=
  { spec := WavSpec.mk 1 sampleRate 16 WavSampleFormat.int
    data := samples.map floatToI16 }

structure TranscriptResult where
  text : String
  confidence : Option ℚ
  isPartial : Bool
deriving DecidableEq, Repr

inductive TranscriptionError
  | engineFailed (msg : String)
deriving DecidableEq, Repr

structure GroqProvider where
  apiKey : String
  model : String
deriving DecidableEq, Repr

/-- Outcome of the HTTP round trip: the status code, the outcome of reading
the response body as text, and the text field extracted when the body parses
as the expected JSON shape. -/
structure HttpResponse where
  status : Nat
  textResult : Option String
  jsonTextField : Option String
deriving DecidableEq, Repr

/-- reqwest StatusCode::is_success: 2xx. -/
def statusIsSuccess (status : Nat) : Bool := decide (200 ≤ status ∧ status < 300)

/-- The error message built on a non-success status (groq_provider.rs lines
68-71). -/
def groqErrorMessage (status : Nat) (body : String) : String :=
  "Groq API error " ++ toString status ++ ": " ++ body

/-- Response handling of transcribe (groq_provider.rs lines 65-84): non-2xx
fails with EngineFailed carrying status and body (body reading failures are
replaced by "Unknown error"); on success the JSON text field becomes the
transcript with no confidence and isPartial false. -/
def handleGroqResponse (resp : HttpResponse) : Except TranscriptionError TranscriptResult :=
  if statusIsSuccess resp.status = false then
    Except.error (TranscriptionError.engineFailed
      (groqErrorMessage resp.status (resp.textResult.getD "Unknown error")))
  else
    match resp.jsonTextField with
    | none => Except.error (TranscriptionError.engineFailed "Failed to parse Groq response")
    | some t => Except.ok (TranscriptResult.mk t none false)

structure MultipartForm where
  file : WavFile
  fileName : String
  mimeType : String
  model : String
  language : Option String
deriving DecidableEq, Repr

/-- transcribe (groq_provider.rs lines 32-84), with the HTTP round trip an
explicit input: encodes the samples at a declared 16000 Hz, builds the
multipart form, then handles the mocked response. -/
def transcribe (p : GroqProvider) (audio : List F32) (language : Option String)
    (resp : HttpResponse) : MultipartForm × Except TranscriptionError TranscriptResult :=
  (MultipartForm.mk (samples_to_wav audio 16000) "audio.wav" "audio/wav" p.model language,
    handleGroqResponse resp)

/-- Sample mapping exactly as the spec words it: scale by 32767, clamp to the
signed 16-bit range, truncate. -/
def specEncodeSample (q : ℚ) : Int := ratTrunc (max (-32768) (min 32767 (q * 32767)))

/-- Modelled from the spec: the repository contains no decoder, so the
round-trip property of the spec is read against the canonical inverse of the
encoding scale, i / 32767. -/
def wavDecode (i : Int) : ℚ := (i : ℚ) / 32767

theorem ratTrunc_mem (x : ℚ) (lo hi : Int) (hlo : (lo : ℚ) ≤ x) (hhi : x ≤ (hi : ℚ)) :
    lo ≤ ratTrunc x ∧ ratTrunc x ≤ hi := by
  rw [ratTrunc]
  by_cases h : 0 ≤ x
  · rw [if_pos h]
    exact ⟨Int.le_floor.mpr hlo, Int.cast_le.mp (le_trans (Int.floor_le x) hhi)⟩
  · rw [if_neg h]
    exact ⟨Int.cast_le.mp (le_trans hlo (Int.le_ceil x)), Int.ceil_le.mpr hhi⟩

theorem ratTrunc_abs_sub_le (x : ℚ) : |(ratTrunc x : ℚ) - x| ≤ 1 := by
  rw [ratTrunc]
  by_cases h : 0 ≤ x
  · rw [if_pos h, abs_le]
    constructor
    · linarith [Int.sub_one_lt_floor x]
    · linarith [Int.floor_le x]
  · rw [if_neg h, abs_le]
    constructor
    · linarith [Int.le_ceil x]
    · linarith [Int.ceil_lt_add_one x]

theorem floatToI16_finite (q : ℚ) : floatToI16 (F32.finite q) = specEncodeSample q := by
  have h1 : ((-32768 : Int) : ℚ) ≤ max (-32768) (min 32767 (q * 32767)) := by
    push_cast
    exact le_max_left _ _
  have h2 : max (-32768 : ℚ) (min 32767 (q * 32767)) ≤ ((32767 : Int) : ℚ) := by
    push_cast
    exact max_le (by norm_num) (min_le_left _ _)
  obtain ⟨hl, hr⟩ := ratTrunc_mem _ _ _ h1 h2
  rw [floatToI16, f32Mul32767, f32Clamp, castToI16, specEncodeSample,
    min_eq_right hr, max_eq_right hl]

theorem castToI16_bounds (x : F32) : -32768 ≤ castToI16 x ∧ castToI16 x ≤ 32767 := by
  cases x with
  | nan => exact ⟨by norm_num [castToI16], by norm_num [castToI16]⟩
  | inf b => cases b <;> simp [castToI16]
  | finite q =>
      exact ⟨le_max_left _ _, max_le (by norm_num) (min_le_left _ _)⟩

/-- C10: the float-to-integer conversion of the encoder is total and lands in
the signed 16-bit range for every f32 input, including out-of-range and
non-finite values. -/
theorem c10_cast_total_in_range (s : F32) :
    -32768 ≤ floatToI16 s ∧ floatToI16 s ≤ 32767 :=
  castToI16_bounds _

/-- C5: the transcription adapter encodes its input as a mono 16-bit
signed-integer PCM container whose header declares 16000 Hz, one stored
integer per input sample (no resampling), each obtained by scaling by 32767,
clamping to the signed 16-bit range, and truncating. -/
theorem c5_wav_encoding (p : GroqProvider) (audio : List F32) (lang : Option String)
    (resp : HttpResponse) :
    (transcribe p audio lang resp).1.file.spec = WavSpec.mk 1 16000 16 WavSampleFormat.int ∧
      (transcribe p audio lang resp).1.file.data = audio.map floatToI16 ∧
      (∀ q : ℚ, floatToI16 (F32.finite q) = specEncodeSample q) ∧
      (transcribe p audio lang resp).1.file.data.length = audio.length := by
  exact ⟨rfl, rfl, floatToI16_finite, by simp [transcribe, samples_to_wav]⟩

/-- C6: on a success status whose body carries a text field, transcribe
returns exactly that text with no confidence and isPartial false. -/
theorem c6_transcribe_success (p : GroqProvider) (audio : List F32) (lang : Option String)
    (resp : HttpResponse) (t : String)
    (hs : statusIsSuccess resp.status = true)
    (hj : resp.jsonTextField = some t) :
    (transcribe p audio lang resp).2 = Except.ok (TranscriptResult.mk t none false) := by
  simp [transcribe, handleGroqResponse, hs, hj]

theorem c6_transcribe_success_witness :
    statusIsSuccess 200 = true ∧
      (HttpResponse.mk 200 (some "body") (some "hello")).jsonTextField = some "hello" ∧
      (transcribe (GroqProvider.mk "key" "whisper-large-v3") [] none
          (HttpResponse.mk 200 (some "body") (some "hello"))).2 =
        Except.ok (TranscriptResult.mk "hello" none false) :=
  ⟨by decide, rfl,
    c6_transcribe_success (GroqProvider.mk "key" "whisper-large-v3") [] none
      (HttpResponse.mk 200 (some "body") (some "hello")) "hello" (by decide) rfl⟩

/-- C7: on a non-success status, transcribe fails with an EngineFailed error
whose message contains both the status code and the response body text, and
returns no transcript. -/
theorem c7_transcribe_error (p : GroqProvider) (audio : List F32) (lang : Option String)
    (resp : HttpResponse) (body : String)
    (hs : statusIsSuccess resp.status = false)
    (hb : resp.textResult = some body) :
    ∃ msg, (transcribe p audio lang resp).2 =
        Except.error (TranscriptionError.engineFailed msg) ∧
      StrContains msg (toString resp.status) ∧ StrContains msg body := by
  refine ⟨groqErrorMessage resp.status body, ?_, ?_, ?_⟩
  · simp [transcribe, handleGroqResponse, hs, hb]
  · refine ⟨"Groq API error ".data, (": " ++ body).data, ?_⟩
    simp [groqErrorMessage, String.data_append]
  · refine ⟨("Groq API error " ++ toString resp.status ++ ": ").data, [], ?_⟩
    simp [groqErrorMessage, String.data_append]

theorem c7_transcribe_error_witness :
    statusIsSuccess 401 = false ∧
      (HttpResponse.mk 401 (some "invalid key") none).textResult = some "invalid key" ∧
      (∃ msg, (transcribe (GroqProvider.mk "key" "whisper-large-v3") [] none
            (HttpResponse.mk 401 (some "invalid key") none)).2 =
          Except.error (TranscriptionError.engineFailed msg) ∧
        StrContains msg (toString 401) ∧ StrContains msg "invalid key") :=
  ⟨by decide, rfl,
    c7_transcribe_error (GroqProvider.mk "key" "whisper-large-v3") [] none
      (HttpResponse.mk 401 (some "invalid key") none) "invalid key" (by decide) rfl⟩

theorem c8_counterexample :
    (samples_to_wav [F32.finite 2] 16000).data = [32767] ∧
      ¬ (|wavDecode 32767 - 2| ≤ 1 / 32767) := by
  constructor
  · have h : floatToI16 (F32.finite 2) = 32767 := by
      rw [floatToI16_finite, specEncodeSample]
      norm_num [min_def, max_def, ratTrunc]
    simp [samples_to_wav, h]
  · have h : wavDecode 32767 - 2 = -1 := by norm_num [wavDecode]
    rw [h, abs_neg, abs_one]
    norm_num

theorem roundtrip_sample (s : ℚ) (hs : |s| ≤ 1) :
    |wavDecode (floatToI16 (F32.finite s)) - s| ≤ 1 / 32767 := by
  rw [floatToI16_finite, specEncodeSample]
  obtain ⟨hlo, hhi⟩ := abs_le.mp hs
  have h1 : min (32767 : ℚ) (s * 32767) = s * 32767 := min_eq_right (by nlinarith)
  have h2 : max (-32768 : ℚ) (s * 32767) = s * 32767 := max_eq_right (by nlinarith)
  rw [h1, h2, wavDecode]
  have ht := ratTrunc_abs_sub_le (s * 32767)
  have heq : (ratTrunc (s * 32767) : ℚ) / 32767 - s =
      ((ratTrunc (s * 32767) : ℚ) - s * 32767) / 32767 := by ring
  rw [heq, abs_div, abs_of_pos (show (0 : ℚ) < 32767 by norm_num)]
  exact div_le_div_of_nonneg_right ht (by norm_num) |>.trans (le_refl _)

/-- C8 amended: encoding a batch through the audio container and decoding
each stored integer back at the encoding scale round-trips every sample that
lies in the nominal amplitude range [-1, 1] to within 1/32767; the original
claim over ALL batches fails, because clamping destroys out-of-range samples
(c8_counterexample, sample 2 decodes to 1 with error 1). -/
theorem c8_roundtrip_inrange (samples : List ℚ) (h : ∀ s ∈ samples, |s| ≤ 1) :
    List.Forall₂ (fun s i => |wavDecode i - s| ≤ 1 / 32767)
      samples (samples_to_wav (samples.map F32.finite) 16000).data := by
  have hdata : (samples_to_wav (samples.map F32.finite) 16000).data =
      samples.map (fun s => floatToI16 (F32.finite s)) := by
    simp [samples_to_wav]
  rw [hdata, List.forall₂_map_right_iff, List.forall₂_same]
  intro s hsmem
  exact roundtrip_sample s (h s hsmem)

theorem c8_roundtrip_inrange_witness :
    (∀ s ∈ [(0 : ℚ)], |s| ≤ 1) ∧
      List.Forall₂ (fun s i => |wavDecode i - s| ≤ 1 / 32767)
        [(0 : ℚ)] (samples_to_wav ([(0 : ℚ)].map F32.finite) 16000).data :=
  ⟨by simp, c8_roundtrip_inrange [(0 : ℚ)] (by simp)⟩

end MeetingMinutes
